import Mathlib

/-!
Shallow embedding of `src/ddns.py` (wangjuns/cloudflare-ddns).

Python strings are modelled as `List Char`.  Network calls are modelled by
passing the outcome of each outbound HTTP request into the embedded function:
`none` / `HttpResult.err` stands for the request raising an exception
(network error or unparseable JSON body), and `HttpResult.ok status body`
stands for a decoded response with the given HTTP status code.
-/

namespace DDNS

/-- Python `str.split(sep)` with a one-character separator, accumulator
form.  `"ip=".split("=") = ["ip",""]`, `"a=b=c".split("=") = ["a","b","c"]`. -/
def pySplitAux (sep : Char) : List Char → List Char → List (List Char)
  | [], acc => [acc.reverse]
  | c :: rest, acc =>
    if c = sep then acc.reverse :: pySplitAux sep rest []
    else pySplitAux sep rest (c :: acc)

/-- Python `str.split(sep)` with a one-character separator. -/
def pySplit (sep : Char) (s : List Char) : List (List Char) :=
  pySplitAux sep s []

/-- Python `str.splitlines()`: splits on `\n`, `\r\n` and `\r` boundaries,
with no empty trailing line (`"".splitlines() = []`, `"a\n".splitlines() =
["a"]`).  The rarer unicode line boundaries Python also accepts are not
modelled; no claim depends on them. -/
def pySplitlinesAux : List Char → List Char → List (List Char)
  | [], [] => []
  | [], acc => [acc.reverse]
  | '\r' :: '\n' :: rest, acc => acc.reverse :: pySplitlinesAux rest []
  | '\r' :: rest, acc => acc.reverse :: pySplitlinesAux rest []
  | '\n' :: rest, acc => acc.reverse :: pySplitlinesAux rest []
  | c :: rest, acc => pySplitlinesAux rest (c :: acc)

/-- Python `str.splitlines()`. -/
def pySplitlines (s : List Char) : List (List Char) :=
  pySplitlinesAux s []

/-- Python `line.startswith("ip=")` (ddns.py line 44). -/
def isIpLine : List Char → Bool
  | 'i' :: 'p' :: '=' :: _ => true
  | _ => false

/-- The loop over `response.text.splitlines()` in `get_current_ip`
(ddns.py lines 43-46): the first line starting with `"ip="` yields
`line.split("=")[1]`; if no line matches, `None` is returned.  The guard
guarantees the line contains a `=`, so `split("=")` has at least two
elements and the `getD` default is never taken. -/
def findIp : List (List Char) → Option (List Char)
  | [] => none
  | line :: rest =>
    if isIpLine line then some ((pySplit '=' line).getD 1 [])
    else findIp rest

/-- `CloudflareDDNS.get_current_ip` (ddns.py lines 38-49).  The argument is
the trace endpoint's response text, `none` if the request raised (the
`except` branch returns `None`). -/
def get_current_ip (traceText : Option (List Char)) : Option (List Char) :=
  match traceText with
  | none => none
  | some text => findIp (pySplitlines text)

/-- Outcome of one outbound HTTP request: `err` when the request raised
(network error, or the body could not be decoded as the expected JSON
shape), `ok status body` for a decoded response. -/
inductive HttpResult (α : Type) where
  | err : HttpResult α
  | ok (status : Nat) (body : α) : HttpResult α
deriving DecidableEq

/-- `requests` raises from `response.raise_for_status()` exactly for
status codes 400-599. -/
def httpRaises (status : Nat) : Bool :=
  400 ≤ status && status < 600

/-- `CloudflareDDNS.verify_token` (ddns.py lines 51-61): success is
strictly HTTP status 200; a raised exception yields `False`. -/
def verify_token (resp : HttpResult Unit) : Bool :=
  match resp with
  | .err => false
  | .ok status _ => status == 200

/-- A DNS record dict decoded from the provider's `"result"` list.  The
fields the loop reads are `"id"` and `"content"`; each is `none` when the
dict lacks that key, in which case indexing raises `KeyError`. -/
structure DNSRecord where
  id : Option (List Char)
  content : Option (List Char)
deriving DecidableEq

/-- `CloudflareDDNS.get_dns_record` (ddns.py lines 63-76): on a raised
exception → `None`; `raise_for_status` turns an HTTP error status into an
exception → `None`; otherwise `records[0] if records else None`. -/
def get_dns_record (resp : HttpResult (List DNSRecord)) : Option DNSRecord :=
  match resp with
  | .err => none
  | .ok status records =>
    if httpRaises status then none
    else records.head?

/-- `CloudflareDDNS.update_dns_record` (ddns.py lines 78-97): on a raised
exception or HTTP error status → `False`; otherwise the decoded
`response.json()["success"]` boolean. -/
def update_dns_record (resp : HttpResult Bool) : Bool :=
  match resp with
  | .err => false
  | .ok status success => if httpRaises status then false else success

/-- The sleep call ending a cycle: `short` is the literal `time.sleep(60)`
(ddns.py lines 118, 130), `normal` is `time.sleep(self.check_interval)`
(lines 124, 147). -/
inductive SleepKind where
  | short : SleepKind
  | normal : SleepKind
deriving DecidableEq

/-- Duration in seconds of a sleep, given the configured `check_interval`
(default 300). -/
def sleepSeconds (interval : Nat) : SleepKind → Nat
  | .short => 60
  | .normal => interval

/-- Environment of one loop iteration: the outcomes of the (up to) three
outbound requests this cycle would issue. -/
structure CycleInput where
  trace : Option (List Char)
  fetch : HttpResult (List DNSRecord)
  update : HttpResult Bool
deriving DecidableEq

/-- Observable outcome of one loop iteration: the value of `last_ip` after
the iteration, which sleep ended it, whether `get_dns_record` and
`update_dns_record` were invoked, and whether the iteration's `except`
handler (ddns.py line 144) caught an exception. -/
structure CycleResult where
  lastIp : Option (List Char)
  sleep : SleepKind
  fetchCalled : Bool
  updateCalled : Bool
  caught : Bool
deriving DecidableEq

/-- One iteration of the `while True` body of `CloudflareDDNS.run`
(ddns.py lines 113-147), for a given environment and cached `last_ip`.
Python truthiness: `if not current_ip` is taken both for `None` and for
the empty string.  `dns_record["content"]` and `dns_record["id"]` raise
`KeyError` when the key is absent; the `except` at the iteration boundary
catches it and the normal-interval sleep at line 147 follows. -/
def runCycle (env : CycleInput) (lastIp : Option (List Char)) : CycleResult :=
  match get_current_ip env.trace with
  | none => ⟨lastIp, .short, false, false, false⟩
  | some ip =>
    if ip = [] then ⟨lastIp, .short, false, false, false⟩
    else if some ip = lastIp then ⟨lastIp, .normal, false, false, false⟩
    else
      match get_dns_record env.fetch with
      | none => ⟨lastIp, .short, true, false, false⟩
      | some record =>
        match record.content with
        | none => ⟨lastIp, .normal, true, false, true⟩
        | some content =>
          if content ≠ ip then
            match record.id with
            | none => ⟨lastIp, .normal, true, false, true⟩
            | some _ =>
              if update_dns_record env.update then
                ⟨some ip, .normal, true, true, false⟩
              else ⟨lastIp, .normal, true, true, false⟩
          else ⟨some ip, .normal, true, false, false⟩

/-- The cached `last_ip` after `n` iterations of the loop, starting from
`last_ip = None` (ddns.py line 111), with `envs k` the environment of
iteration `k`.  Total by construction: the loop has no terminal state. -/
def runLoop (envs : Nat → CycleInput) : Nat → Option (List Char)
  | 0 => none
  | n + 1 => (runCycle (envs n) (runLoop envs n)).lastIp

/-- Outcome of process startup via `__main__` (ddns.py lines 150-152):
whether the `while True` loop was entered, and the process exit status
(`none` when the loop was entered, since the loop never returns). -/
structure StartupResult where
  loopStarted : Bool
  exitCode : Option Nat
deriving DecidableEq

/-- The `__main__` path: `CloudflareDDNS.__init__` calls `sys.exit(1)`
when any of the three required environment variables is missing (ddns.py
lines 26-28); otherwise `run()` is called, which plainly `return`s when
`verify_token()` is false (lines 106-108), so the script falls off the end
of `__main__` and the interpreter exits with status 0.  Only when
verification succeeds is the loop entered. -/
def mainProcess (tokenSet zoneSet nameSet : Bool)
    (verifyResp : HttpResult Unit) : StartupResult :=
  if !(tokenSet && zoneSet && nameSet) then ⟨false, some 1⟩
  else if !(verify_token verifyResp) then ⟨false, some 0⟩
  else ⟨true, none⟩

end DDNS

namespace DDNS

/-! Helper lemmas about the parsing functions. -/

theorem findIp_append (pre : List (List Char)) (ls : List (List Char))
    (h : ∀ l ∈ pre, isIpLine l = false) :
    findIp (pre ++ ls) = findIp ls := by
  induction pre with
  | nil => rfl
  | cons a as ih =>
    have ha : isIpLine a = false := h a (by simp)
    have has : ∀ l ∈ as, isIpLine l = false := fun l hl => h l (by simp [hl])
    simp [findIp, ha, ih has]

theorem pySplitAux_head (sep : Char) (v : List Char) : ∀ acc : List Char,
    ∃ rest, pySplitAux sep v acc =
      (acc.reverse ++ v.takeWhile (fun c => c != sep)) :: rest := by
  induction v with
  | nil => intro acc; exact ⟨[], by simp [pySplitAux]⟩
  | cons c cs ih =>
    intro acc
    by_cases h : c = sep
    · exact ⟨pySplitAux sep cs [], by simp [pySplitAux, h, List.takeWhile_cons]⟩
    · obtain ⟨rest, hr⟩ := ih (c :: acc)
      exact ⟨rest, by simp [pySplitAux, h, List.takeWhile_cons, hr]⟩

end DDNS

namespace DDNS

/-- C2: in a cycle where the resolved current IP is present (a non-empty
string) and equals the cached `last_ip`, neither `get_dns_record` nor
`update_dns_record` is invoked, `last_ip` is unchanged and the cycle ends
with the normal-interval sleep (ddns.py lines 122-125). -/
theorem C2_unchanged_ip_skips_client (env : CycleInput) (ip : List Char)
    (hip : get_current_ip env.trace = some ip) (hne : ip ≠ []) :
    runCycle env (some ip) =
      ⟨some ip, SleepKind.normal, false, false, false⟩ := by
  simp [runCycle, hip, hne]

/-- Witness for C2 at the spec's section-8 scenario: cached IP
`203.0.113.5`, resolver returns `203.0.113.5`. -/
theorem C2_unchanged_ip_skips_client_witness :
    runCycle ⟨some "ip=203.0.113.5".toList, HttpResult.err, HttpResult.err⟩
        (some "203.0.113.5".toList) =
      ⟨some "203.0.113.5".toList, SleepKind.normal, false, false, false⟩ :=
  C2_unchanged_ip_skips_client
    ⟨some "ip=203.0.113.5".toList, HttpResult.err, HttpResult.err⟩
    "203.0.113.5".toList (by decide) (by decide)

/-- C3: in a cycle where the fetched record's content differs from the
resolved IP and `update_dns_record` returns failure, `last_ip` is
unchanged and the cycle ends with the normal-interval sleep (ddns.py
lines 133-139 falling through to line 147), so the next cycle re-attempts
the identical reconciliation. -/
theorem C3_update_failure_keeps_state (env : CycleInput)
    (lastIp : Option (List Char)) (ip c rid : List Char) (r : DNSRecord)
    (hip : get_current_ip env.trace = some ip) (hne : ip ≠ [])
    (hnew : some ip ≠ lastIp)
    (hrec : get_dns_record env.fetch = some r)
    (hc : r.content = some c) (hcne : c ≠ ip) (hid : r.id = some rid)
    (hupd : update_dns_record env.update = false) :
    runCycle env lastIp = ⟨lastIp, SleepKind.normal, true, true, false⟩ := by
  simp [runCycle, hip, hne, hnew, hrec, hc, hcne, hid, hupd]

/-- Witness for C3: fresh start, record holds a stale address, the update
request fails with a network error. -/
theorem C3_update_failure_keeps_state_witness :
    runCycle ⟨some "ip=9.9.9.9".toList,
        HttpResult.ok 200 [⟨some "rec123".toList, some "1.1.1.1".toList⟩],
        HttpResult.err⟩ none =
      ⟨none, SleepKind.normal, true, true, false⟩ :=
  C3_update_failure_keeps_state
    ⟨some "ip=9.9.9.9".toList,
      HttpResult.ok 200 [⟨some "rec123".toList, some "1.1.1.1".toList⟩],
      HttpResult.err⟩
    none "9.9.9.9".toList "1.1.1.1".toList "rec123".toList
    ⟨some "rec123".toList, some "1.1.1.1".toList⟩
    (by decide) (by decide) (by decide) (by decide) (by decide) (by decide)
    (by decide) (by decide)

/-- C5: in a cycle where the IP resolver returns absent, `last_ip` is
unchanged, no DNS client call is made, and the cycle ends with the short
sleep, whose duration is the literal 60 seconds regardless of the
configured poll interval (ddns.py lines 115-119). -/
theorem C5_resolver_absent_short_retry (env : CycleInput)
    (lastIp : Option (List Char)) (interval : Nat)
    (h : get_current_ip env.trace = none) :
    runCycle env lastIp = ⟨lastIp, SleepKind.short, false, false, false⟩ ∧
    sleepSeconds interval SleepKind.short = 60 := by
  exact ⟨by simp [runCycle, h], rfl⟩

/-- Witness for C5: the trace request raises, with a cached address and
the default 300-second interval. -/
theorem C5_resolver_absent_short_retry_witness :
    runCycle ⟨none, HttpResult.err, HttpResult.err⟩
        (some "1.2.3.4".toList) =
      ⟨some "1.2.3.4".toList, SleepKind.short, false, false, false⟩ ∧
    sleepSeconds 300 SleepKind.short = 60 :=
  C5_resolver_absent_short_retry ⟨none, HttpResult.err, HttpResult.err⟩
    (some "1.2.3.4".toList) 300 rfl

/-- C7: in a cycle where the fetched record's content already equals the
resolved IP, `last_ip` is set to that IP and `update_dns_record` is not
called (ddns.py lines 140-142). -/
theorem C7_record_already_current (env : CycleInput)
    (lastIp : Option (List Char)) (ip : List Char) (r : DNSRecord)
    (hip : get_current_ip env.trace = some ip) (hne : ip ≠ [])
    (hnew : some ip ≠ lastIp)
    (hrec : get_dns_record env.fetch = some r)
    (hc : r.content = some ip) :
    runCycle env lastIp = ⟨some ip, SleepKind.normal, true, false, false⟩ := by
  simp [runCycle, hip, hne, hnew, hrec, hc]

/-- Witness for C7: fresh start and a record that already holds the
current address. -/
theorem C7_record_already_current_witness :
    runCycle ⟨some "ip=3.3.3.3".toList,
        HttpResult.ok 200 [⟨some "r1".toList, some "3.3.3.3".toList⟩],
        HttpResult.err⟩ none =
      ⟨some "3.3.3.3".toList, SleepKind.normal, true, false, false⟩ :=
  C7_record_already_current
    ⟨some "ip=3.3.3.3".toList,
      HttpResult.ok 200 [⟨some "r1".toList, some "3.3.3.3".toList⟩],
      HttpResult.err⟩
    none "3.3.3.3".toList ⟨some "r1".toList, some "3.3.3.3".toList⟩
    (by decide) (by decide) (by decide) (by decide) (by decide)

/-- C8: in a cycle where the fetched record's content differs from the
resolved IP and `update_dns_record` succeeds, `last_ip` becomes the
resolved current IP (ddns.py lines 133-137). -/
theorem C8_update_success_sets_state (env : CycleInput)
    (lastIp : Option (List Char)) (ip c rid : List Char) (r : DNSRecord)
    (hip : get_current_ip env.trace = some ip) (hne : ip ≠ [])
    (hnew : some ip ≠ lastIp)
    (hrec : get_dns_record env.fetch = some r)
    (hc : r.content = some c) (hcne : c ≠ ip) (hid : r.id = some rid)
    (hupd : update_dns_record env.update = true) :
    runCycle env lastIp = ⟨some ip, SleepKind.normal, true, true, false⟩ := by
  simp [runCycle, hip, hne, hnew, hrec, hc, hcne, hid, hupd]

/-- Witness for C8 at the spec's section-8 scenario: cached IP null,
resolver returns `203.0.113.5`, record `rec123` holds `198.51.100.9`, the
update succeeds. -/
theorem C8_update_success_sets_state_witness :
    runCycle ⟨some "ip=203.0.113.5".toList,
        HttpResult.ok 200 [⟨some "rec123".toList, some "198.51.100.9".toList⟩],
        HttpResult.ok 200 true⟩ none =
      ⟨some "203.0.113.5".toList, SleepKind.normal, true, true, false⟩ :=
  C8_update_success_sets_state
    ⟨some "ip=203.0.113.5".toList,
      HttpResult.ok 200 [⟨some "rec123".toList, some "198.51.100.9".toList⟩],
      HttpResult.ok 200 true⟩
    none "203.0.113.5".toList "198.51.100.9".toList "rec123".toList
    ⟨some "rec123".toList, some "198.51.100.9".toList⟩
    (by decide) (by decide) (by decide) (by decide) (by decide) (by decide)
    (by decide) (by decide)

end DDNS

namespace DDNS

/-- C1 counterexample: with all three environment variables set and a
credential verification that fails (the verify request errors, so
`verify_token` is `False`), the loop never starts, yet the process exit
status is 0, not non-zero: `run()` merely returns at ddns.py lines
106-108 and `__main__` falls off the end. -/
theorem C1_counterexample :
    verify_token HttpResult.err = false ∧
    (mainProcess true true true HttpResult.err).loopStarted = false ∧
    (mainProcess true true true HttpResult.err).exitCode = some 0 := by
  decide

/-- C1 amended: if credential verification fails at startup the loop body
never executes and the process exits, but with exit code 0; only a
missing required configuration variable produces a non-zero exit (code 1,
from `sys.exit(1)` in `__init__`), and the loop is entered exactly when
the configuration is complete and verification succeeds. -/
theorem C1_verify_failure_stops_loop :
    (∀ vr : HttpResult Unit, verify_token vr = false →
      mainProcess true true true vr = ⟨false, some 0⟩) ∧
    (∀ (t z n : Bool) (vr : HttpResult Unit), (t && z && n) = false →
      mainProcess t z n vr = ⟨false, some 1⟩) ∧
    (∀ vr : HttpResult Unit, verify_token vr = true →
      mainProcess true true true vr = ⟨true, none⟩) := by
  refine ⟨?_, ?_, ?_⟩
  · intro vr h
    simp [mainProcess, h]
  · intro t z n vr h
    simp [mainProcess, h]
  · intro vr h
    simp [mainProcess, h]

/-- Witness for the amended C1: a failing verification request, a missing
token variable, and a 200-status verification. -/
theorem C1_verify_failure_stops_loop_witness :
    mainProcess true true true HttpResult.err = ⟨false, some 0⟩ ∧
    mainProcess false true true HttpResult.err = ⟨false, some 1⟩ ∧
    mainProcess true true true (HttpResult.ok 200 ()) = ⟨true, none⟩ :=
  ⟨C1_verify_failure_stops_loop.1 HttpResult.err rfl,
   C1_verify_failure_stops_loop.2.1 false true true HttpResult.err rfl,
   C1_verify_failure_stops_loop.2.2 (HttpResult.ok 200 ()) rfl⟩

/-- C4 counterexample: for the response line `ip=1=2`, the code returns
`1` — the field between the first and second `=` — which is neither
everything after the first `=` (`1=2`) nor everything after the last one
(`2`), so "returns everything in that line after the `=`" fails whenever
the value itself contains `=`. -/
theorem C4_counterexample :
    get_current_ip (some "ip=1=2".toList) = some "1".toList ∧
    "1".toList ≠ "1=2".toList ∧ "1".toList ≠ "2".toList := by
  decide

/-- C4 amended: `get_current_ip` returns absent on network failure and
when no line starts with `ip=`; when a line does (the first such line,
`ip=` followed by a value `v`), it returns the longest `=`-free leading
segment of `v` — which is all of `v`, i.e. everything after the `=`,
exactly when `v` contains no `=`. -/
theorem C4_parse_first_field :
    (get_current_ip none = none) ∧
    (∀ text, (∀ l ∈ pySplitlines text, isIpLine l = false) →
      get_current_ip (some text) = none) ∧
    (∀ text pre v post,
      pySplitlines text = pre ++ ('i' :: 'p' :: '=' :: v) :: post →
      (∀ l ∈ pre, isIpLine l = false) →
      get_current_ip (some text) =
        some (v.takeWhile (fun c => c != '='))) ∧
    (∀ v : List Char, (∀ c ∈ v, c ≠ '=') →
      v.takeWhile (fun c => c != '=') = v) := by
  refine ⟨rfl, ?_, ?_, ?_⟩
  · intro text h
    have h2 := findIp_append (pySplitlines text) [] h
    simpa [get_current_ip, findIp] using h2
  · intro text pre v post hsplit hpre
    have h1 : get_current_ip (some text) = findIp (pySplitlines text) := rfl
    rw [h1, hsplit, findIp_append pre _ hpre]
    obtain ⟨rest, hr⟩ := pySplitAux_head '=' v []
    simp [findIp, isIpLine, pySplit, pySplitAux, hr]
  · intro v
    induction v with
    | nil => intro _; rfl
    | cons c cs ih =>
      intro h
      have hc : c ≠ '=' := h c (by simp)
      have hcs : ∀ x ∈ cs, x ≠ '=' := fun x hx => h x (by simp [hx])
      simp [List.takeWhile_cons, hc, ih hcs]

/-- Witness for the amended C4: a response with no `ip=` line, a
three-line trace response whose `ip=` value is `=`-free, and the
`=`-free-value fact at that value. -/
theorem C4_parse_first_field_witness :
    get_current_ip (some "a=b\nc".toList) = none ∧
    get_current_ip (some "fl=x\nip=1.2.3.4\nts=9".toList) =
      some ("1.2.3.4".toList.takeWhile (fun c => c != '=')) ∧
    "1.2.3.4".toList.takeWhile (fun c => c != '=') = "1.2.3.4".toList :=
  ⟨C4_parse_first_field.2.1 "a=b\nc".toList (by decide),
   C4_parse_first_field.2.2.1 "fl=x\nip=1.2.3.4\nts=9".toList
     ["fl=x".toList] "1.2.3.4".toList ["ts=9".toList] (by decide) (by decide),
   C4_parse_first_field.2.2.2 "1.2.3.4".toList (by decide)⟩

end DDNS

namespace DDNS

/-- C6: `get_dns_record` returns absent when the request raises, absent
on an HTTP error status (400-599, which `raise_for_status` turns into an
exception), and the first record of the provider's filtered result list —
absent when that list is empty — otherwise; and in any cycle where it
returns absent, `last_ip` is unchanged and the short sleep ends the cycle
(ddns.py lines 63-76 and 127-131). -/
theorem C6_fetch_absent_contract :
    (get_dns_record (HttpResult.err : HttpResult (List DNSRecord)) = none) ∧
    (∀ (s : Nat) (records : List DNSRecord), 400 ≤ s → s < 600 →
      get_dns_record (HttpResult.ok s records) = none) ∧
    (∀ (s : Nat) (records : List DNSRecord), s < 400 →
      get_dns_record (HttpResult.ok s records) = records.head?) ∧
    (∀ (env : CycleInput) (lastIp : Option (List Char)) (ip : List Char),
      get_current_ip env.trace = some ip → ip ≠ [] → some ip ≠ lastIp →
      get_dns_record env.fetch = none →
      runCycle env lastIp = ⟨lastIp, SleepKind.short, true, false, false⟩) := by
  refine ⟨rfl, ?_, ?_, ?_⟩
  · intro s records h1 h2
    simp [get_dns_record, httpRaises, h1, h2]
  · intro s records h
    have h1 : ¬ 400 ≤ s := by omega
    simp [get_dns_record, httpRaises, h1]
  · intro env lastIp ip hip hne hnew hrec
    simp [runCycle, hip, hne, hnew, hrec]

/-- Witness for C6: a 404 response with a record in the body, a 200
response with two records, and a cycle whose fetch request raises. -/
theorem C6_fetch_absent_contract_witness :
    get_dns_record (HttpResult.ok 404
      [⟨some "a".toList, some "b".toList⟩]) = none ∧
    get_dns_record (HttpResult.ok 200
        [⟨some "a".toList, some "b".toList⟩, ⟨none, none⟩]) =
      some ⟨some "a".toList, some "b".toList⟩ ∧
    runCycle ⟨some "ip=2.2.2.2".toList, HttpResult.err, HttpResult.err⟩ none =
      ⟨none, SleepKind.short, true, false, false⟩ :=
  ⟨C6_fetch_absent_contract.2.1 404 [⟨some "a".toList, some "b".toList⟩]
     (by decide) (by decide),
   C6_fetch_absent_contract.2.2.1 200
     [⟨some "a".toList, some "b".toList⟩, ⟨none, none⟩] (by decide),
   C6_fetch_absent_contract.2.2.2
     ⟨some "ip=2.2.2.2".toList, HttpResult.err, HttpResult.err⟩ none
     "2.2.2.2".toList (by decide) (by decide) (by decide) rfl⟩

/-- C9: an unexpected exception raised in the iteration body — in this
code, a `KeyError` from `dns_record["content"]` or `dns_record["id"]` on
a record dict lacking that key — is caught by the `except` at the
iteration boundary (ddns.py line 144), leaves `last_ip` unchanged, and is
followed by the normal-interval sleep at line 147; and the loop always
takes a next step (it has no terminal state: the state after `n + 1`
cycles is always that of applying one more cycle). -/
theorem C9_iteration_exception_caught :
    (∀ (env : CycleInput) (lastIp : Option (List Char)) (ip : List Char)
      (r : DNSRecord),
      get_current_ip env.trace = some ip → ip ≠ [] → some ip ≠ lastIp →
      get_dns_record env.fetch = some r → r.content = none →
      runCycle env lastIp = ⟨lastIp, SleepKind.normal, true, false, true⟩) ∧
    (∀ (env : CycleInput) (lastIp : Option (List Char)) (ip c : List Char)
      (r : DNSRecord),
      get_current_ip env.trace = some ip → ip ≠ [] → some ip ≠ lastIp →
      get_dns_record env.fetch = some r → r.content = some c → c ≠ ip →
      r.id = none →
      runCycle env lastIp = ⟨lastIp, SleepKind.normal, true, false, true⟩) ∧
    (∀ (envs : Nat → CycleInput) (n : Nat),
      runLoop envs (n + 1) = (runCycle (envs n) (runLoop envs n)).lastIp) := by
  refine ⟨?_, ?_, ?_⟩
  · intro env lastIp ip r hip hne hnew hrec hc
    simp [runCycle, hip, hne, hnew, hrec, hc]
  · intro env lastIp ip c r hip hne hnew hrec hc hcne hid
    simp [runCycle, hip, hne, hnew, hrec, hc, hcne, hid]
  · intro envs n
    rfl

/-- Witness for C9: a record dict without `content`, a record dict with a
stale `content` but no `id`, and one concrete loop step. -/
theorem C9_iteration_exception_caught_witness :
    runCycle ⟨some "ip=4.4.4.4".toList,
        HttpResult.ok 200 [⟨some "r".toList, none⟩], HttpResult.err⟩ none =
      ⟨none, SleepKind.normal, true, false, true⟩ ∧
    runCycle ⟨some "ip=5.5.5.5".toList,
        HttpResult.ok 200 [⟨none, some "1.1.1.1".toList⟩],
        HttpResult.err⟩ none =
      ⟨none, SleepKind.normal, true, false, true⟩ ∧
    runLoop (fun _ => ⟨none, HttpResult.err, HttpResult.err⟩) 1 =
      (runCycle ⟨none, HttpResult.err, HttpResult.err⟩
        (runLoop (fun _ => ⟨none, HttpResult.err, HttpResult.err⟩) 0)).lastIp :=
  ⟨C9_iteration_exception_caught.1
     ⟨some "ip=4.4.4.4".toList, HttpResult.ok 200 [⟨some "r".toList, none⟩],
       HttpResult.err⟩
     none "4.4.4.4".toList ⟨some "r".toList, none⟩
     (by decide) (by decide) (by decide) (by decide) rfl,
   C9_iteration_exception_caught.2.1
     ⟨some "ip=5.5.5.5".toList,
       HttpResult.ok 200 [⟨none, some "1.1.1.1".toList⟩], HttpResult.err⟩
     none "5.5.5.5".toList "1.1.1.1".toList ⟨none, some "1.1.1.1".toList⟩
     (by decide) (by decide) (by decide) (by decide) rfl (by decide) rfl,
   C9_iteration_exception_caught.2.2
     (fun _ => ⟨none, HttpResult.err, HttpResult.err⟩) 0⟩

/-- C10: if the trace response's `ip=` line (its first line starting with
`ip=`) is exactly `ip=`, `get_current_ip` returns the empty string, and a
cycle whose resolved IP is the empty string behaves exactly like a
resolver-absent cycle: Python's `if not current_ip` is taken, `last_ip`
is untouched and the short 60-second sleep ends the cycle (ddns.py lines
43-46 and 115-119). -/
theorem C10_empty_ip_value_like_absent :
    (∀ text pre post,
      pySplitlines text = pre ++ ('i' :: 'p' :: '=' :: []) :: post →
      (∀ l ∈ pre, isIpLine l = false) →
      get_current_ip (some text) = some []) ∧
    (∀ (env : CycleInput) (lastIp : Option (List Char)),
      get_current_ip env.trace = some [] →
      runCycle env lastIp = ⟨lastIp, SleepKind.short, false, false, false⟩) := by
  constructor
  · intro text pre post hsplit hpre
    have h1 : get_current_ip (some text) = findIp (pySplitlines text) := rfl
    rw [h1, hsplit, findIp_append pre _ hpre]
    rfl
  · intro env lastIp h
    simp [runCycle, h]

/-- Witness for C10: a two-line response `x`, `ip=`, and the cycle it
induces. -/
theorem C10_empty_ip_value_like_absent_witness :
    get_current_ip (some "x\nip=".toList) = some [] ∧
    runCycle ⟨some "ip=".toList, HttpResult.err, HttpResult.err⟩
        (some "7.7.7.7".toList) =
      ⟨some "7.7.7.7".toList, SleepKind.short, false, false, false⟩ :=
  ⟨C10_empty_ip_value_like_absent.1 "x\nip=".toList ["x".toList] []
     (by decide) (by decide),
   C10_empty_ip_value_like_absent.2
     ⟨some "ip=".toList, HttpResult.err, HttpResult.err⟩
     (some "7.7.7.7".toList) (by decide)⟩

end DDNS
